import Mathlib

/-!
Shallow embedding of the oauth_fcm crate: the OAuth token manager
(src/token_manager.rs), the error taxonomy (src/error.rs) and the FCM
message sender (src/fcm.rs).

Network I/O, clocks and RSA signing are external effects; they are
modelled as explicit parameters grouped in environment records, and the
mutable manager is passed in state-passing style: each operation returns
its result together with the state of the manager after the call and a
count of the network requests it attempted.  Time instants are natural
numbers of seconds (`now_unix` for `SystemTime`, `now_mono` for the
monotonic `Instant`).
-/

namespace OauthFcm

/-- Mirrors `NetworkError` in src/error.rs.  The wrapped `reqwest::Error`
values are opaque to the crate and are dropped here. -/
inductive NetworkError where
  | SendRequestError
  | ResponseError
  | ServerError (status : Nat) (body : Option String)

/-- Mirrors `FcmError` in src/error.rs, with the wrapped foreign error
payloads dropped. -/
inductive FcmError where
  | OAuthNetworkError (e : NetworkError)
  | FcmNetworkError (e : NetworkError)
  | FcmInvalidPayloadError
  | SerializationError
  | JwtEncodeError
  | IoError

/-- Minimal model of `serde_json::Value`. -/
inductive Json where
  | null
  | bool (b : Bool)
  | num (n : Int)
  | str (s : String)
  | arr (xs : List Json)
  | obj (fields : List (String × Json))

/-- Looks a string field up in a JSON object, as the serde derive does for
a `String` struct field: the value must exist and be a JSON string. -/
def Json.getStr (j : Json) (key : String) : Option String :=
  match j with
  | .obj fields =>
    match fields.lookup key with
    | some (.str s) => some s
    | _ => none
  | _ => none

/-- Mirrors `ServiceAccountKey` in src/token_manager.rs. -/
structure ServiceAccountKey where
  private_key : String
  client_email : String
  private_key_id : String

/-- The `serde_json::from_reader` step of `TokenManager::new`: the
credential byte stream is modelled by its JSON parse, `none` when it is
not valid JSON.  The derive(Deserialize) for `ServiceAccountKey` requires
the three string fields and ignores extra fields; any failure surfaces as
the serde error, converted by `#[from]` into `FcmError::SerializationError`. -/
def parseServiceAccountKey (stream : Option Json) : Except FcmError ServiceAccountKey :=
  match stream with
  | none => .error .SerializationError
  | some j =>
    match j.getStr ("private_key"), j.getStr ("client_email"), j.getStr ("private_key_id") with
    | some pk, some ce, some kid => .ok ⟨pk, ce, kid⟩
    | _, _, _ => .error .SerializationError

/-- Mirrors `TokenManager` in src/token_manager.rs.  `expires_at` is a
monotonic instant in seconds. -/
structure TokenManager where
  token : Option String
  expires_at : Option Nat
  service_account_key : ServiceAccountKey

/-- `TokenManager::new` in src/token_manager.rs. -/
def TokenManager.new (credentials : Option Json) : Except FcmError TokenManager :=
  match parseServiceAccountKey credentials with
  | .error e => .error e
  | .ok service_account_key => .ok ⟨none, none, service_account_key⟩

/-- `create_shared_token_manager` in src/lib.rs: builds the manager and
wraps it in `Arc<Mutex<_>>`; the wrapper is the identity in this
sequential model. -/
def create_shared_token_manager (credentials : Option Json) : Except FcmError TokenManager :=
  TokenManager.new credentials

/-- `TokenManager::is_token_expired`, with `Instant::now()` passed
explicitly.  It reads only `expires_at` and returns a `Bool`: it mutates
nothing. -/
def TokenManager.is_token_expired (self : TokenManager) (now : Nat) : Bool :=
  match self.expires_at with
  | some e => decide (e ≤ now)
  | none => true

/-- The JWT header built by `create_signed_jwt`: `Header::new(RS256)`
with the key id set. -/
structure JwtHeader where
  alg : String
  kid : String

/-- The claim set built by `create_signed_jwt`. -/
structure JwtClaims where
  iss : String
  scope : String
  aud : String
  exp : Nat
  iat : Nat

/-- A signed JWT: its header, its claims and the PEM key material that
signed it (the signature bytes themselves stay abstract). -/
structure SignedJwt where
  header : JwtHeader
  claims : JwtClaims
  key_pem : String

/-- `create_signed_jwt` in src/token_manager.rs.  `now` is the UNIX time
in seconds; `pemOk` says whether `EncodingKey::from_rsa_pem` accepts the
key material.  Both a key-parse failure and an `encode` failure surface as
`JwtEncodeError`; with well-formed key material `encode` succeeds, so the
success case is conditioned on `pemOk` alone. -/
def create_signed_jwt (service_account_key : ServiceAccountKey) (now : Nat)
    (pemOk : String → Bool) : Except FcmError SignedJwt :=
  if pemOk service_account_key.private_key then
    .ok ⟨⟨"RS256", service_account_key.private_key_id⟩,
         ⟨service_account_key.client_email,
          "https://www.googleapis.com/auth/firebase.messaging",
          "https://oauth2.googleapis.com/token",
          now + 3600, now⟩,
         service_account_key.private_key⟩
  else
    .error .JwtEncodeError

/-- `AccessTokenResponse` in src/token_manager.rs (`expires_in: u64`). -/
structure AccessTokenResponse where
  access_token : String
  expires_in : Nat

/-- An authorization-server HTTP response: its status code together with
the outcome of decoding its body as `AccessTokenResponse` (`none` when
the body does not decode). -/
structure OAuthHttpResponse where
  status : Nat
  decodedBody : Option AccessTokenResponse

/-- `get_access_token` in src/token_manager.rs, applied to the outcome of
the send step (`.error ()` when the request could not be sent).  Note the
status code of a received response is logged but never consulted. -/
def get_access_token (sendResult : Except Unit OAuthHttpResponse) :
    Except FcmError AccessTokenResponse :=
  match sendResult with
  | .error _ => .error (.OAuthNetworkError .SendRequestError)
  | .ok response =>
    match response.decodedBody with
    | none => .error (.OAuthNetworkError .ResponseError)
    | some r => .ok r

/-- The ambient effects of a token refresh: the wall clock (UNIX seconds,
used only inside the JWT claims), the monotonic clock (used for the
cache expiry), whether the PEM key parses, and the network, as the
authorization-exchange outcome for a given URL and assertion. -/
structure OAuthEnv where
  now_unix : Nat
  now_mono : Nat
  pemOk : String → Bool
  exchange : String → SignedJwt → Except Unit OAuthHttpResponse

/-- Result of one token operation: the returned value, the manager state
after the call, and how many authorization exchanges were attempted. -/
structure StepResult where
  result : Except FcmError String
  state : TokenManager
  exchanges : Nat

/-- `TokenManager::refresh_token_with_url` in src/token_manager.rs, in
state-passing form. -/
def TokenManager.refresh_token_with_url (self : TokenManager)
    (auth_server_url : String) (env : OAuthEnv) : StepResult :=
  match create_signed_jwt self.service_account_key env.now_unix env.pemOk with
  | .error e => ⟨.error e, self, 0⟩
  | .ok signed_jwt =>
    match get_access_token (env.exchange auth_server_url signed_jwt) with
    | .error e => ⟨.error e, self, 1⟩
    | .ok access_token_response =>
      let new_token := access_token_response.access_token
      ⟨.ok new_token,
       { self with
          token := some new_token,
          expires_at := some (env.now_mono + access_token_response.expires_in) },
       1⟩

/-- `TokenManager::refresh_token` in src/token_manager.rs. -/
def TokenManager.refresh_token (self : TokenManager) (env : OAuthEnv) : StepResult :=
  self.refresh_token_with_url ("https://oauth2.googleapis.com/token") env

/-- `TokenManager::get_token` in src/token_manager.rs. -/
def TokenManager.get_token (self : TokenManager) (env : OAuthEnv) : StepResult :=
  match self.token with
  | some token =>
    if self.is_token_expired env.now_mono then self.refresh_token env
    else ⟨.ok token, self, 0⟩
  | none => self.refresh_token env

/-- The cache invariant of the manager: `token` and `expires_at` are set
or absent together. -/
def TokenManager.cacheInv (self : TokenManager) : Prop :=
  self.token.isSome = self.expires_at.isSome

/-- `FcmNotification` in src/fcm.rs. -/
structure FcmNotification where
  title : String
  body : String

/-- `create_payload` in src/fcm.rs.  The generic serialisable data
payload is modelled by the outcome of `serde_json::to_value` on it:
`.error ()` when serialisation fails, which `create_payload` maps to
`FcmError::SerializationError`. -/
def create_payload (device_token : String) (notification : Option FcmNotification)
    (data_payload : Option (Except Unit Json)) : Except FcmError Json :=
  match notification, data_payload with
  | some n, some dp =>
    match dp with
    | .error _ => .error .SerializationError
    | .ok data =>
      .ok (.obj [("message", .obj
        [("token", .str device_token),
         ("notification", .obj [("title", .str n.title), ("body", .str n.body)]),
         ("data", data)])])
  | none, some dp =>
    match dp with
    | .error _ => .error .SerializationError
    | .ok data =>
      .ok (.obj [("message", .obj
        [("token", .str device_token),
         ("data", data)])])
  | some n, none =>
    .ok (.obj [("message", .obj
      [("token", .str device_token),
       ("notification", .obj [("title", .str n.title), ("body", .str n.body)])])])
  | none, none => .error .FcmInvalidPayloadError

/-- A messaging-endpoint HTTP response: status code together with the
outcome of reading the body as text (`none` when reading it fails). -/
structure FcmHttpResponse where
  status : Nat
  text : Option String

/-- `reqwest::StatusCode::is_success`: the status is in 200..=299. -/
def statusIsSuccess (status : Nat) : Bool :=
  decide (200 ≤ status) && decide (status < 300)

/-- Environment of a message send: the token-refresh environment plus the
messaging-POST outcome as a function of URL, bearer token and payload. -/
structure FcmEnv where
  oauth : OAuthEnv
  fcmExchange : String → String → Json → Except Unit FcmHttpResponse

/-- Result of `send_fcm_message[_with_url]`: the outcome, the
token-manager state afterwards, the number of authorization exchanges
attempted and the number of messaging POSTs attempted. -/
structure SendResult where
  result : Except FcmError Unit
  state : TokenManager
  oauthExchanges : Nat
  fcmCalls : Nat

/-- `send_fcm_message_with_url` in src/fcm.rs: the bearer token is
obtained from the (locked) manager first, then the payload is built, then
one POST is issued and a non-2xx status is turned into `ServerError`. -/
def send_fcm_message_with_url (device_token : String)
    (notification : Option FcmNotification) (data_payload : Option (Except Unit Json))
    (token_manager : TokenManager) (fcm_url : String) (env : FcmEnv) : SendResult :=
  let step := token_manager.get_token env.oauth
  match step.result with
  | .error e => ⟨.error e, step.state, step.exchanges, 0⟩
  | .ok access_token =>
    match create_payload device_token notification data_payload with
    | .error e => ⟨.error e, step.state, step.exchanges, 0⟩
    | .ok payload =>
      match env.fcmExchange fcm_url access_token payload with
      | .error _ =>
        ⟨.error (.FcmNetworkError .SendRequestError), step.state, step.exchanges, 1⟩
      | .ok res =>
        if statusIsSuccess res.status then
          ⟨.ok (), step.state, step.exchanges, 1⟩
        else
          match res.text with
          | none => ⟨.error (.FcmNetworkError .ResponseError), step.state, step.exchanges, 1⟩
          | some t =>
            ⟨.error (.FcmNetworkError (.ServerError res.status (some t))),
             step.state, step.exchanges, 1⟩

/-- `send_fcm_message` in src/fcm.rs: fixes the URL from the project id
and delegates. -/
def send_fcm_message (device_token : String) (notification : Option FcmNotification)
    (data_payload : Option (Except Unit Json)) (token_manager : TokenManager)
    (project_id : String) (env : FcmEnv) : SendResult :=
  send_fcm_message_with_url device_token notification data_payload token_manager
    ("https://fcm.googleapis.com/v1/projects/" ++ project_id ++ "/messages:send") env

/-- A sample service-account key for concrete evaluations. -/
def sampleKey : ServiceAccountKey := ⟨"PEM", "svc@example.com", "kid1"⟩

/-- A freshly constructed manager over `sampleKey`. -/
def sampleFresh : TokenManager := ⟨none, none, sampleKey⟩

/-- An environment whose authorization exchange always answers 200 with
access token "tok" and `expires_in` 3600. -/
def sampleEnvOk : OAuthEnv :=
  ⟨1000, 50, fun _ => true, fun _ _ => .ok ⟨200, some ⟨"tok", 3600⟩⟩⟩

/-- `sampleEnvOk` at a monotonic instant 5 seconds later. -/
def sampleEnvLater : OAuthEnv :=
  ⟨1005, 55, fun _ => true, fun _ _ => .ok ⟨200, some ⟨"tok2", 3600⟩⟩⟩

/-- A message-send environment over `sampleEnvOk` whose messaging POST
always answers 200 with an empty body. -/
def sampleFcmEnv : FcmEnv :=
  ⟨sampleEnvOk, fun _ _ _ => .ok ⟨200, some ""⟩⟩

/-- A message-send environment whose authorization exchange cannot even be
sent. -/
def sampleFcmEnvOAuthDown : FcmEnv :=
  ⟨⟨1000, 50, fun _ => true, fun _ _ => .error ()⟩, fun _ _ _ => .ok ⟨200, some ""⟩⟩

/-- An authorization environment whose exchange cannot be sent. -/
def sampleEnvDown : OAuthEnv :=
  ⟨1000, 50, fun _ => true, fun _ _ => .error ()⟩

/-- A manager holding a stale cached token (expired at instant 10). -/
def tmStale : TokenManager := ⟨some "old", some 10, sampleKey⟩

/-- A credential JSON carrying the three required fields plus an extra
one. -/
def sampleCredJson : Json :=
  .obj [("private_key", .str "PEM"), ("client_email", .str "svc@example.com"),
        ("private_key_id", .str "kid1"), ("extra", .num 1)]

/-- A refresh either fails and leaves the manager untouched, or succeeds
with the decoded response token, caching it with expiry now_mono plus
expires_in, after exactly one exchange. -/
theorem refresh_with_url_cases (tm : TokenManager) (url : String) (env : OAuthEnv) :
    ((tm.refresh_token_with_url url env).state = tm
      ∧ ∃ e, (tm.refresh_token_with_url url env).result = .error e)
    ∨ ∃ r : AccessTokenResponse,
        tm.refresh_token_with_url url env =
          ⟨.ok r.access_token,
           { tm with token := some r.access_token,
                     expires_at := some (env.now_mono + r.expires_in) }, 1⟩ := by
  cases hj : create_signed_jwt tm.service_account_key env.now_unix env.pemOk with
  | error e =>
    refine .inl ⟨?_, e, ?_⟩ <;> simp [TokenManager.refresh_token_with_url, hj]
  | ok jwt =>
    cases hg : get_access_token (env.exchange url jwt) with
    | error e =>
      refine .inl ⟨?_, e, ?_⟩ <;> simp [TokenManager.refresh_token_with_url, hj, hg]
    | ok r =>
      refine .inr ⟨r, ?_⟩
      simp [TokenManager.refresh_token_with_url, hj, hg]

/-- A cached, unexpired token is returned as-is with no exchange. -/
theorem get_token_of_cached_valid (tm : TokenManager) (env : OAuthEnv) (t : String)
    (htok : tm.token = some t) (hval : tm.is_token_expired env.now_mono = false) :
    tm.get_token env = ⟨.ok t, tm, 0⟩ := by
  simp [TokenManager.get_token, htok, hval]

/-- With no cached token, or an expired one, get_token delegates to
refresh_token. -/
theorem get_token_of_unset_or_expired (tm : TokenManager) (env : OAuthEnv)
    (h : tm.token = none ∨ tm.is_token_expired env.now_mono = true) :
    tm.get_token env = tm.refresh_token env := by
  rcases h with h | h
  · simp [TokenManager.get_token, h]
  · cases htok : tm.token with
    | none => simp [TokenManager.get_token, htok]
    | some t => simp [TokenManager.get_token, htok, h]

/-- When get_token returns a token, that token is the cached one of the
resulting state. -/
theorem get_token_ok_state_token (tm : TokenManager) (env : OAuthEnv) (t : String)
    (h : (tm.get_token env).result = .ok t) :
    (tm.get_token env).state.token = some t := by
  cases htok : tm.token with
  | none =>
    rw [get_token_of_unset_or_expired tm env (.inl htok)] at h ⊢
    simp only [TokenManager.refresh_token] at h ⊢
    rcases refresh_with_url_cases tm ("https://oauth2.googleapis.com/token") env with
      ⟨hs, e, he⟩ | ⟨r, hr⟩
    · rw [he] at h; cases h
    · rw [hr] at h ⊢
      simp only [Except.ok.injEq] at h
      subst h
      rfl
  | some tok =>
    cases hexp : tm.is_token_expired env.now_mono with
    | true =>
      rw [get_token_of_unset_or_expired tm env (.inr hexp)] at h ⊢
      simp only [TokenManager.refresh_token] at h ⊢
      rcases refresh_with_url_cases tm ("https://oauth2.googleapis.com/token") env with
        ⟨hs, e, he⟩ | ⟨r, hr⟩
      · rw [he] at h; cases h
      · rw [hr] at h ⊢
        simp only [Except.ok.injEq] at h
        subst h
        rfl
    | false =>
      rw [get_token_of_cached_valid tm env tok htok hexp] at h ⊢
      simp only [Except.ok.injEq] at h
      subst h
      exact htok

/-- C5: is_token_expired is a pure predicate over the cache state and the
current monotonic time (it returns a Bool and touches no state): it is
false exactly when expires_at is present and strictly greater than now,
true when expires_at is absent or has passed, and a freshly constructed
manager reports it true. -/
theorem c5_is_token_expired_spec (tm : TokenManager) (now : Nat) :
    (tm.is_token_expired now = false ↔ ∃ e, tm.expires_at = some e ∧ now < e)
    ∧ (tm.expires_at = none → tm.is_token_expired now = true)
    ∧ (∀ e, tm.expires_at = some e → e ≤ now → tm.is_token_expired now = true)
    ∧ (∀ s m, TokenManager.new s = .ok m → m.is_token_expired now = true) := by
  refine ⟨?_, ?_, ?_, ?_⟩
  · cases h : tm.expires_at with
    | none => simp [TokenManager.is_token_expired, h]
    | some e =>
      simp only [TokenManager.is_token_expired, h, decide_eq_false_iff_not, Nat.not_le,
        Option.some.injEq]
      constructor
      · intro hlt; exact ⟨e, rfl, hlt⟩
      · rintro ⟨x, hx, hlt⟩; subst hx; exact hlt
  · intro h; simp [TokenManager.is_token_expired, h]
  · intro e he hle; simp [TokenManager.is_token_expired, he, hle]
  · intro s m hm
    cases hp : parseServiceAccountKey s with
    | error e => simp [TokenManager.new, hp] at hm
    | ok k =>
      simp only [TokenManager.new, hp, Except.ok.injEq] at hm
      subst hm
      rfl

/-- Witness for C5 at concrete inputs: expiry 10 reads unexpired at 9 and
expired at 10, and a freshly parsed manager starts expired. -/
theorem c5_is_token_expired_spec_witness :
    ((⟨some "tok", some 10, sampleKey⟩ : TokenManager).is_token_expired 9 = false)
    ∧ ((⟨some "tok", some 10, sampleKey⟩ : TokenManager).is_token_expired 10 = true)
    ∧ sampleFresh.is_token_expired 0 = true :=
  ⟨(c5_is_token_expired_spec ⟨some "tok", some 10, sampleKey⟩ 9).1.mpr ⟨10, rfl, by decide⟩,
   (c5_is_token_expired_spec ⟨some "tok", some 10, sampleKey⟩ 10).2.2.1 10 rfl (by decide),
   (c5_is_token_expired_spec sampleFresh 0).2.2.2 (some sampleCredJson) sampleFresh rfl⟩

/-- C6: the OAuth response body is decoded without consulting the HTTP
status: get_access_token's outcome is invariant under the status; an
undecodable body fails with OAuthNetworkError ResponseError and a
decodable body — whatever the status, 2xx or not — is treated as success
and its token cached by the refresh. -/
theorem c6_status_never_checked :
    (∀ status status2 d,
      get_access_token (.ok ⟨status, d⟩) = get_access_token (.ok ⟨status2, d⟩))
    ∧ (∀ status,
      get_access_token (.ok ⟨status, none⟩) = .error (.OAuthNetworkError .ResponseError))
    ∧ (∀ status r, get_access_token (.ok ⟨status, some r⟩) = .ok r)
    ∧ (∀ key t e url status r nowu nowm,
        TokenManager.refresh_token_with_url ⟨t, e, key⟩ url
            ⟨nowu, nowm, fun _ => true, fun _ _ => .ok ⟨status, some r⟩⟩
          = ⟨.ok r.access_token, ⟨some r.access_token, some (nowm + r.expires_in), key⟩, 1⟩)
    ∧ (∀ key t e url status nowu nowm,
        TokenManager.refresh_token_with_url ⟨t, e, key⟩ url
            ⟨nowu, nowm, fun _ => true, fun _ _ => .ok ⟨status, none⟩⟩
          = ⟨.error (.OAuthNetworkError .ResponseError), ⟨t, e, key⟩, 1⟩) := by
  refine ⟨fun status status2 d => ?_, fun status => rfl, fun status r => rfl,
    fun key t e url status r nowu nowm => rfl, fun key t e url status nowu nowm => rfl⟩
  cases d <;> rfl

/-- C9: the signed assertion has header alg RS256 and kid the credential's
private_key_id; claims iss the client email, the fixed messaging scope,
aud the canonical token endpoint, iat the current UNIX second and exp
iat plus 3600; it is signed with the credential's private key, and a key
that does not parse fails with JwtEncodeError. -/
theorem c9_signed_jwt_shape (key : ServiceAccountKey) (now : Nat) (pemOk : String → Bool) :
    (pemOk key.private_key = true →
      create_signed_jwt key now pemOk =
        .ok ⟨⟨"RS256", key.private_key_id⟩,
             ⟨key.client_email,
              "https://www.googleapis.com/auth/firebase.messaging",
              "https://oauth2.googleapis.com/token",
              now + 3600, now⟩,
             key.private_key⟩)
    ∧ (pemOk key.private_key = false →
      create_signed_jwt key now pemOk = .error .JwtEncodeError) := by
  constructor <;> intro h <;> simp [create_signed_jwt, h]

/-- Witness for C9 at a concrete key and time, with both a parsing and a
non-parsing key. -/
theorem c9_signed_jwt_shape_witness :
    create_signed_jwt sampleKey 1000 (fun _ => true) =
      .ok ⟨⟨"RS256", "kid1"⟩,
           ⟨"svc@example.com",
            "https://www.googleapis.com/auth/firebase.messaging",
            "https://oauth2.googleapis.com/token",
            1000 + 3600, 1000⟩,
           "PEM"⟩
    ∧ create_signed_jwt sampleKey 1000 (fun _ => false) = .error .JwtEncodeError :=
  ⟨(c9_signed_jwt_shape sampleKey 1000 (fun _ => true)).1 rfl,
   (c9_signed_jwt_shape sampleKey 1000 (fun _ => false)).2 rfl⟩

/-- C2: a successful refresh_token_with_url caches the access token from
the response, sets expires_at to the monotonic now plus expires_in, and
returns that token; afterwards the token reads unexpired at monotonic
instants strictly before expires_in seconds have elapsed and expired from
then on. -/
theorem c2_refresh_success_updates_cache (tm : TokenManager) (url : String)
    (env : OAuthEnv) (jwt : SignedJwt) (status : Nat) (r : AccessTokenResponse)
    (hjwt : create_signed_jwt tm.service_account_key env.now_unix env.pemOk = .ok jwt)
    (hex : env.exchange url jwt = .ok ⟨status, some r⟩) :
    tm.refresh_token_with_url url env =
      ⟨.ok r.access_token,
       { tm with token := some r.access_token,
                 expires_at := some (env.now_mono + r.expires_in) }, 1⟩
    ∧ (∀ d : Nat,
        ({ tm with token := some r.access_token,
                   expires_at := some (env.now_mono + r.expires_in) } : TokenManager).is_token_expired
            (env.now_mono + d)
          = decide (r.expires_in ≤ d)) := by
  constructor
  · simp [TokenManager.refresh_token_with_url, hjwt, hex, get_access_token]
  · intro d
    simp [TokenManager.is_token_expired]

/-- Witness for C2: a fresh manager refreshed in sampleEnvOk caches "tok"
with expiry 50 + 3600, reads unexpired 3599 seconds later and expired
3600 seconds later. -/
theorem c2_refresh_success_updates_cache_witness :
    sampleFresh.refresh_token_with_url ("u") sampleEnvOk =
      ⟨.ok "tok",
       { sampleFresh with token := some "tok", expires_at := some (50 + 3600) }, 1⟩
    ∧ ({ sampleFresh with token := some "tok",
                           expires_at := some (50 + 3600) } : TokenManager).is_token_expired (50 + 3599)
        = decide ((3600 : Nat) ≤ 3599)
    ∧ ({ sampleFresh with token := some "tok",
                           expires_at := some (50 + 3600) } : TokenManager).is_token_expired (50 + 3600)
        = decide ((3600 : Nat) ≤ 3600) :=
  ⟨(c2_refresh_success_updates_cache sampleFresh ("u") sampleEnvOk
      ⟨⟨"RS256", "kid1"⟩,
       ⟨"svc@example.com",
        "https://www.googleapis.com/auth/firebase.messaging",
        "https://oauth2.googleapis.com/token",
        1000 + 3600, 1000⟩,
       "PEM"⟩ 200 ⟨"tok", 3600⟩ rfl rfl).1,
   (c2_refresh_success_updates_cache sampleFresh ("u") sampleEnvOk
      ⟨⟨"RS256", "kid1"⟩,
       ⟨"svc@example.com",
        "https://www.googleapis.com/auth/firebase.messaging",
        "https://oauth2.googleapis.com/token",
        1000 + 3600, 1000⟩,
       "PEM"⟩ 200 ⟨"tok", 3600⟩ rfl rfl).2 3599,
   (c2_refresh_success_updates_cache sampleFresh ("u") sampleEnvOk
      ⟨⟨"RS256", "kid1"⟩,
       ⟨"svc@example.com",
        "https://www.googleapis.com/auth/firebase.messaging",
        "https://oauth2.googleapis.com/token",
        1000 + 3600, 1000⟩,
       "PEM"⟩ 200 ⟨"tok", 3600⟩ rfl rfl).2 3600⟩

/-- C1: get_token serves the cached token with no exchange when a token is
present and unexpired, otherwise it performs the refresh and returns its
result; a successful refreshing call makes exactly one exchange, and any
call that returned a token leaves it cached, so a second call made while
it is still unexpired is served from the cache with no exchange. -/
theorem c1_get_token_cache_policy (tm : TokenManager) (env env2 : OAuthEnv) :
    (∀ t, tm.token = some t → tm.is_token_expired env.now_mono = false →
      tm.get_token env = ⟨.ok t, tm, 0⟩)
    ∧ ((tm.token = none ∨ tm.is_token_expired env.now_mono = true) →
      tm.get_token env = tm.refresh_token env)
    ∧ (∀ t, tm.is_token_expired env.now_mono = true → (tm.get_token env).result = .ok t →
      (tm.get_token env).exchanges = 1)
    ∧ (∀ t, (tm.get_token env).result = .ok t →
      (tm.get_token env).state.token = some t
      ∧ ((tm.get_token env).state.is_token_expired env2.now_mono = false →
          (tm.get_token env).state.get_token env2
            = ⟨.ok t, (tm.get_token env).state, 0⟩)) := by
  refine ⟨fun t htok hval => get_token_of_cached_valid tm env t htok hval,
    fun h => get_token_of_unset_or_expired tm env h, ?_, ?_⟩
  · intro t hexp h
    rw [get_token_of_unset_or_expired tm env (.inr hexp)] at h ⊢
    simp only [TokenManager.refresh_token] at h ⊢
    rcases refresh_with_url_cases tm ("https://oauth2.googleapis.com/token") env with
      ⟨hs, e, he⟩ | ⟨r, hr⟩
    · rw [he] at h; cases h
    · rw [hr]
  · intro t h
    have hst := get_token_ok_state_token tm env t h
    exact ⟨hst, fun hval =>
      get_token_of_cached_valid (tm.get_token env).state env2 t hst hval⟩

/-- Witness for C1: a fresh manager's first get_token refreshes in one
exchange and caches "tok" until instant 3650; a second call five seconds
later is served from the cache with zero exchanges. -/
theorem c1_get_token_cache_policy_witness :
    sampleFresh.get_token sampleEnvOk = sampleFresh.refresh_token sampleEnvOk
    ∧ (sampleFresh.get_token sampleEnvOk).exchanges = 1
    ∧ (sampleFresh.get_token sampleEnvOk).state.get_token sampleEnvLater
        = ⟨.ok "tok", (sampleFresh.get_token sampleEnvOk).state, 0⟩ :=
  ⟨(c1_get_token_cache_policy sampleFresh sampleEnvOk sampleEnvLater).2.1 (.inl rfl),
   (c1_get_token_cache_policy sampleFresh sampleEnvOk sampleEnvLater).2.2.1 "tok" rfl rfl,
   ((c1_get_token_cache_policy sampleFresh sampleEnvOk sampleEnvLater).2.2.2 "tok" rfl).2 rfl⟩

/-- C3: when a refresh fails at any step — JWT signing, sending the
request, or decoding the response — the operation reports the error and
the cached state (token and expires_at alike) is exactly what it was
before the call, through refresh_token_with_url, refresh_token and a
refreshing get_token. -/
theorem c3_refresh_failure_preserves_state (tm : TokenManager) (url : String)
    (env : OAuthEnv) :
    (∀ e, (tm.refresh_token_with_url url env).result = .error e →
      (tm.refresh_token_with_url url env).state = tm)
    ∧ (∀ e, (tm.refresh_token env).result = .error e →
      (tm.refresh_token env).state = tm)
    ∧ (∀ e, (tm.get_token env).result = .error e →
      (tm.get_token env).state = tm) := by
  have hkey : ∀ u, ∀ e : FcmError, (tm.refresh_token_with_url u env).result = .error e →
      (tm.refresh_token_with_url u env).state = tm := by
    intro u e h
    rcases refresh_with_url_cases tm u env with ⟨hs, ex, he⟩ | ⟨r, hr⟩
    · exact hs
    · rw [hr] at h; cases h
  refine ⟨hkey url, ?_, ?_⟩
  · intro e h
    simp only [TokenManager.refresh_token] at h ⊢
    exact hkey ("https://oauth2.googleapis.com/token") e h
  · intro e h
    cases htok : tm.token with
    | none =>
      rw [get_token_of_unset_or_expired tm env (.inl htok)] at h ⊢
      simp only [TokenManager.refresh_token] at h ⊢
      exact hkey ("https://oauth2.googleapis.com/token") e h
    | some tok =>
      cases hexp : tm.is_token_expired env.now_mono with
      | true =>
        rw [get_token_of_unset_or_expired tm env (.inr hexp)] at h ⊢
        simp only [TokenManager.refresh_token] at h ⊢
        exact hkey ("https://oauth2.googleapis.com/token") e h
      | false =>
        rw [get_token_of_cached_valid tm env tok htok hexp] at h
        cases h

/-- Witness for C3: refresh against an unreachable authorization server
fails and leaves a stale manager exactly as it was, both for a direct
refresh and for a refreshing get_token. -/
theorem c3_refresh_failure_preserves_state_witness :
    (tmStale.refresh_token_with_url ("u") sampleEnvDown).state = tmStale
    ∧ (tmStale.get_token sampleEnvDown).state = tmStale :=
  ⟨(c3_refresh_failure_preserves_state tmStale ("u") sampleEnvDown).1
      (.OAuthNetworkError .SendRequestError) rfl,
   (c3_refresh_failure_preserves_state tmStale ("u") sampleEnvDown).2.2
      (.OAuthNetworkError .SendRequestError) rfl⟩

/-- C4: token and expires_at are set or absent together: a freshly
constructed manager has both absent, every operation preserves the
invariant, and a successful refresh sets both. -/
theorem c4_cache_invariant (tm : TokenManager) (env : OAuthEnv) (url : String) :
    (∀ s m, TokenManager.new s = .ok m →
      m.token = none ∧ m.expires_at = none ∧ m.cacheInv)
    ∧ (tm.cacheInv → (tm.refresh_token_with_url url env).state.cacheInv)
    ∧ (tm.cacheInv → (tm.refresh_token env).state.cacheInv)
    ∧ (tm.cacheInv → (tm.get_token env).state.cacheInv)
    ∧ (∀ t, (tm.refresh_token_with_url url env).result = .ok t →
        (tm.refresh_token_with_url url env).state.token = some t
        ∧ ∃ x, (tm.refresh_token_with_url url env).state.expires_at = some x) := by
  have hpres : ∀ u, tm.cacheInv → (tm.refresh_token_with_url u env).state.cacheInv := by
    intro u hinv
    rcases refresh_with_url_cases tm u env with ⟨hs, ex, he⟩ | ⟨r, hr⟩
    · rw [hs]; exact hinv
    · rw [hr]; rfl
  refine ⟨?_, hpres url, ?_, ?_, ?_⟩
  · intro s m hm
    cases hp : parseServiceAccountKey s with
    | error e => simp [TokenManager.new, hp] at hm
    | ok k =>
      simp only [TokenManager.new, hp, Except.ok.injEq] at hm
      subst hm
      exact ⟨rfl, rfl, rfl⟩
  · intro hinv
    simp only [TokenManager.refresh_token]
    exact hpres ("https://oauth2.googleapis.com/token") hinv
  · intro hinv
    cases htok : tm.token with
    | none =>
      rw [get_token_of_unset_or_expired tm env (.inl htok)]
      simp only [TokenManager.refresh_token]
      exact hpres ("https://oauth2.googleapis.com/token") hinv
    | some tok =>
      cases hexp : tm.is_token_expired env.now_mono with
      | true =>
        rw [get_token_of_unset_or_expired tm env (.inr hexp)]
        simp only [TokenManager.refresh_token]
        exact hpres ("https://oauth2.googleapis.com/token") hinv
      | false =>
        rw [get_token_of_cached_valid tm env tok htok hexp]
        exact hinv
  · intro t h
    rcases refresh_with_url_cases tm url env with ⟨hs, ex, he⟩ | ⟨r, hr⟩
    · rw [he] at h; cases h
    · rw [hr] at h ⊢
      simp only [Except.ok.injEq] at h
      subst h
      exact ⟨rfl, env.now_mono + r.expires_in, rfl⟩

/-- Witness for C4: the freshly parsed manager satisfies the invariant,
and so does the state after a refreshing get_token of a stale manager. -/
theorem c4_cache_invariant_witness :
    (sampleFresh.token = none ∧ sampleFresh.expires_at = none ∧ sampleFresh.cacheInv)
    ∧ (tmStale.get_token sampleEnvOk).state.cacheInv
    ∧ ((tmStale.refresh_token_with_url ("u") sampleEnvOk).state.token = some "tok"
        ∧ ∃ x, (tmStale.refresh_token_with_url ("u") sampleEnvOk).state.expires_at = some x) :=
  ⟨(c4_cache_invariant tmStale sampleEnvOk ("u")).1 (some sampleCredJson) sampleFresh rfl,
   (c4_cache_invariant tmStale sampleEnvOk ("u")).2.2.2.1 rfl,
   (c4_cache_invariant tmStale sampleEnvOk ("u")).2.2.2.2 "tok" rfl⟩

/-- C7 counterexample: with neither notification nor data, a send on a
fresh manager still performs an authorization network exchange before the
payload check (the token is obtained first), and when that token fetch
fails the call reports the OAuth error, not FcmInvalidPayloadError; so
"fails immediately with FcmInvalidPayloadError with no network call made"
is false as stated. -/
theorem c7_payload_rules_counterexample :
    (send_fcm_message_with_url ("dev") none none sampleFresh ("u") sampleFcmEnv).result
        = .error .FcmInvalidPayloadError
    ∧ (send_fcm_message_with_url ("dev") none none sampleFresh ("u") sampleFcmEnv).oauthExchanges
        = 1
    ∧ (send_fcm_message_with_url ("dev") none none sampleFresh ("u") sampleFcmEnvOAuthDown).result
        = .error (.OAuthNetworkError .SendRequestError) :=
  ⟨rfl, rfl, rfl⟩

/-- C7 amended: the payload is constructed exactly as claimed in the four
cases; when neither notification nor data is present no FCM POST is
issued, and the call fails with FcmInvalidPayloadError provided the
preceding token acquisition succeeded — the token is fetched before the
payload check, so an authorization exchange may still happen, and a
failing fetch surfaces as its own error instead. -/
theorem c7_payload_rules_amended (dt : String) (n : FcmNotification) (d : Json)
    (tm : TokenManager) (url : String) (env : FcmEnv) :
    (create_payload dt (some n) (some (.ok d)) =
      .ok (.obj [("message", .obj
        [("token", .str dt),
         ("notification", .obj [("title", .str n.title), ("body", .str n.body)]),
         ("data", d)])]))
    ∧ (create_payload dt none (some (.ok d)) =
      .ok (.obj [("message", .obj [("token", .str dt), ("data", d)])]))
    ∧ (create_payload dt (some n) none =
      .ok (.obj [("message", .obj
        [("token", .str dt),
         ("notification", .obj [("title", .str n.title), ("body", .str n.body)])])]))
    ∧ (create_payload dt none none = .error .FcmInvalidPayloadError)
    ∧ (∀ t, (tm.get_token env.oauth).result = .ok t →
        send_fcm_message_with_url dt none none tm url env =
          ⟨.error .FcmInvalidPayloadError, (tm.get_token env.oauth).state,
           (tm.get_token env.oauth).exchanges, 0⟩)
    ∧ (∀ e, (tm.get_token env.oauth).result = .error e →
        send_fcm_message_with_url dt none none tm url env =
          ⟨.error e, (tm.get_token env.oauth).state,
           (tm.get_token env.oauth).exchanges, 0⟩) := by
  refine ⟨rfl, rfl, rfl, rfl, ?_, ?_⟩
  · intro t h
    simp only [send_fcm_message_with_url]
    rw [h]
    rfl
  · intro e h
    simp only [send_fcm_message_with_url]
    rw [h]

/-- Witness for the amended C7: on a fresh manager with a reachable
authorization server, a payload-less send ends in FcmInvalidPayloadError
after the token fetch, with no FCM POST. -/
theorem c7_payload_rules_amended_witness :
    send_fcm_message_with_url ("dev") none none sampleFresh ("u") sampleFcmEnv =
      ⟨.error .FcmInvalidPayloadError, (sampleFresh.get_token sampleFcmEnv.oauth).state,
       (sampleFresh.get_token sampleFcmEnv.oauth).exchanges, 0⟩ :=
  ((c7_payload_rules_amended ("dev") ⟨"T", "B"⟩ Json.null sampleFresh ("u")
      sampleFcmEnv).2.2.2.2.1) "tok" rfl

/-- C8: a credential stream that is not valid JSON or lacks one of
private_key, client_email, private_key_id makes construction fail with
the credential-parse error (FcmError::SerializationError, the serde error
of the spec's CredentialParseError) and produces no manager; with all
three fields present it succeeds — whatever extra fields accompany them —
with an empty cache. -/
theorem c8_credential_parse (j : Json) (pk ce kid : String) :
    TokenManager.new none = .error .SerializationError
    ∧ ((j.getStr ("private_key") = none ∨ j.getStr ("client_email") = none ∨
        j.getStr ("private_key_id") = none) →
        TokenManager.new (some j) = .error .SerializationError)
    ∧ (j.getStr ("private_key") = some pk → j.getStr ("client_email") = some ce →
        j.getStr ("private_key_id") = some kid →
        TokenManager.new (some j) = .ok ⟨none, none, ⟨pk, ce, kid⟩⟩)
    ∧ create_shared_token_manager (some j) = TokenManager.new (some j) := by
  refine ⟨rfl, ?_, ?_, rfl⟩
  · intro h
    rcases h3 : j.getStr ("private_key") with _ | pk1 <;>
      rcases h4 : j.getStr ("client_email") with _ | ce1 <;>
        rcases h5 : j.getStr ("private_key_id") with _ | kid1 <;>
          simp_all [TokenManager.new, parseServiceAccountKey]
  · intro h1 h2 h3
    simp [TokenManager.new, parseServiceAccountKey, h1, h2, h3]

/-- Witness for C8: a stream with the three fields plus an extra one
succeeds with an empty cache, and a stream missing private_key fails. -/
theorem c8_credential_parse_witness :
    TokenManager.new (some sampleCredJson)
        = .ok ⟨none, none, ⟨"PEM", "svc@example.com", "kid1"⟩⟩
    ∧ TokenManager.new (some (Json.obj [("client_email", .str "svc@example.com")]))
        = .error .SerializationError :=
  ⟨(c8_credential_parse sampleCredJson "PEM" "svc@example.com" "kid1").2.2.1 rfl rfl rfl,
   (c8_credential_parse (Json.obj [("client_email", .str "svc@example.com")]) "" "" "").2.1
      (Or.inl rfl)⟩

/-- C10: the signed assertion never depends on the endpoint argument — its
aud claim is the constant canonical token endpoint — and two refreshes
against different URLs whose environments agree on clocks, key parsing
and on the exchange outcome at those URLs behave identically: the URL
affects only where the POST is sent. -/
theorem c10_endpoint_only_affects_post (key : ServiceAccountKey) (now : Nat)
    (pemOk : String → Bool) :
    (∀ jwt, create_signed_jwt key now pemOk = .ok jwt →
      jwt.claims.aud = "https://oauth2.googleapis.com/token")
    ∧ (∀ (tm : TokenManager) (u1 u2 : String) (e1 e2 : OAuthEnv),
        e1.now_unix = e2.now_unix → e1.now_mono = e2.now_mono → e1.pemOk = e2.pemOk →
        (∀ jwt, e1.exchange u1 jwt = e2.exchange u2 jwt) →
        tm.refresh_token_with_url u1 e1 = tm.refresh_token_with_url u2 e2) := by
  constructor
  · intro jwt h
    unfold create_signed_jwt at h
    split at h
    · simp only [Except.ok.injEq] at h
      subst h
      rfl
    · cases h
  · intro tm u1 u2 e1 e2 h1 h2 h3 h4
    simp only [TokenManager.refresh_token_with_url, h1, h2, h3]
    rw [show e1.exchange u1 = e2.exchange u2 from funext h4]

/-- Witness for C10: the same refresh outcome against two different URLs
under the same environment, and the constant aud of the concrete JWT. -/
theorem c10_endpoint_only_affects_post_witness :
    sampleFresh.refresh_token_with_url ("a") sampleEnvOk
        = sampleFresh.refresh_token_with_url ("b") sampleEnvOk
    ∧ (⟨⟨"RS256", "kid1"⟩,
        ⟨"svc@example.com",
         "https://www.googleapis.com/auth/firebase.messaging",
         "https://oauth2.googleapis.com/token",
         1000 + 3600, 1000⟩,
        "PEM"⟩ : SignedJwt).claims.aud = "https://oauth2.googleapis.com/token" :=
  ⟨(c10_endpoint_only_affects_post sampleKey 1000 (fun _ => true)).2 sampleFresh
      ("a") ("b") sampleEnvOk sampleEnvOk rfl rfl rfl (fun _ => rfl),
   (c10_endpoint_only_affects_post sampleKey 1000 (fun _ => true)).1
      ⟨⟨"RS256", "kid1"⟩,
       ⟨"svc@example.com",
        "https://www.googleapis.com/auth/firebase.messaging",
        "https://oauth2.googleapis.com/token",
        1000 + 3600, 1000⟩,
       "PEM"⟩ rfl⟩

end OauthFcm
